import Mathlib

/-!
Shallow embedding of the AI_URL_Detector core pipeline
(`src/feature_extractor.py` and the scan routes of `app.py`).

Python strings are modelled as `List Char`; external collaborators
(`urllib.parse`, `tldextract`, `python-whois`, `ssl`/`socket`, `requests`)
are modelled as deterministic functions gathered in an `Env` record, with
`Option` results standing for calls that may raise an exception
(`none` = the call raised).
-/

/-- Python `str` is modelled as a list of characters. -/
abbrev Str := List Char

/-- Model of Python `str.strip()`: drop leading and trailing whitespace. -/
def pyStrip (s : Str) : Str :=
  ((s.dropWhile Char.isWhitespace).reverse.dropWhile Char.isWhitespace).reverse

/-- Model of the Python idiom `(x or "")` applied to an optional string field:
`None` becomes the empty string, any actual string is kept. -/
def pyOrEmpty (s : Option Str) : Str :=
  match s with
  | none => []
  | some t => t

/-- The literal `"http://"`. -/
def schemeHttp : Str := "http://".toList

/-- The literal `"https://"`. -/
def schemeHttps : Str := "https://".toList

/-- Model of `url.startswith(("http://", "https://"))`. -/
def startsWithScheme (s : Str) : Bool :=
  schemeHttp.isPrefixOf s || schemeHttps.isPrefixOf s

/-- Embedding of `_normalize_url`: strip the input, then prepend `"http://"`
unless the stripped string already starts with `"http://"` or `"https://"`. -/
def normalize_url (url : Str) : Str :=
  let url := pyStrip url
  if startsWithScheme url then url else schemeHttp ++ url

/-- Model of Python `s.split(sep)` for a one-character separator. -/
def pySplit (sep : Char) (s : Str) : List Str :=
  match s with
  | [] => [[]]
  | c :: rest =>
    if c = sep then [] :: pySplit sep rest
    else
      match pySplit sep rest with
      | h :: t => (c :: h) :: t
      | [] => [[c]]

/-- The fixed suspicious keyword list of `_count_suspicious_keywords`. -/
def suspicious_words : List Str :=
  [ "login".toList, "secure".toList, "signin".toList, "verify".toList,
    "update".toList, "account".toList, "bank".toList, "payment".toList,
    "confirm".toList, "invoice".toList, "paypal".toList, "security".toList,
    "webscr".toList, "password".toList ]

/-- Model of the Python substring test `w in text`. -/
def pyIn (w : Str) : Str → Bool
  | [] => w.isEmpty
  | c :: rest => w.isPrefixOf (c :: rest) || pyIn w rest

/-- Embedding of `_count_suspicious_keywords`: lower-case the raw URL text and
count how many words of the fixed list occur in it as substrings
(`sum(1 for w in suspicious_words if w in text)`). -/
def count_suspicious_keywords (url : Str) : Nat :=
  (suspicious_words.filter (fun w => pyIn w (url.map Char.toLower))).length

/-- Model of Python `s.count(pat)` (non-overlapping substring count), with an
explicit skip counter so the recursion is structural on the text. -/
def countSubAux (pat : Str) (skip : Nat) : Str → Nat
  | [] => 0
  | c :: rest =>
    match skip with
    | k + 1 => countSubAux pat k rest
    | 0 =>
      if pat.isPrefixOf (c :: rest) then 1 + countSubAux pat (pat.length - 1) rest
      else countSubAux pat 0 rest

/-- Model of Python `s.count(pat)` for a (non-empty) pattern string. -/
def countSub (pat s : Str) : Nat := countSubAux pat 0 s

/-- The literal `"//"` counted by lexical feature 4. -/
def doubleSlash : Str := "//".toList

/-- The scenario URL of the spec, `http://secure-login-verify-paypal.badsite.test/account/confirm`. -/
def scenarioURL : Str :=
  "http://secure-login-verify-paypal.badsite.test/account/confirm".toList

/-- The external collaborators of the pipeline, modelled as deterministic
functions. `urlparse` and `tldextract.extract` are pure library parsers;
the three network calls return `Option` values, where `none` models the
call raising an exception (DNS failure, refused connection, timeout,
malformed response, ...). -/
structure Env where
  /-- Component `urlparse(u).netloc`. -/
  netloc : Str → Str
  /-- Component `urlparse(u).scheme`. -/
  scheme : Str → Str
  /-- Component `urlparse(u).path`. -/
  path : Str → Str
  /-- Field `tldextract.extract(u).suffix`. -/
  suffix : Str → Str
  /-- Field `tldextract.extract(u).subdomain`. -/
  subdomain : Str → Str
  /-- Result of `whois.whois(domain).creation_date`, normalized to a list of
  creation dates measured in days since some epoch: `none` means the query
  raised (or the date arithmetic failed), `some []` means no creation date
  was present, and a non-list single date is the singleton list. -/
  whoisCreationDates : Str → Option (List Int)
  /-- Value of `datetime.datetime.utcnow()` in days since the same epoch. -/
  nowUtcDays : Int
  /-- Outcome of the TLS handshake of `_has_valid_ssl`: `none` means some step
  raised, `some b` means the handshake succeeded and `b` says whether
  `ssock.getpeercert()` returned a non-empty (truthy) certificate. -/
  sslCert : Str → Option Bool
  /-- Outcome of `requests.get(url, timeout=5, allow_redirects=True)`:
  `none` means the request raised, `some n` means it returned a response
  with `len(resp.history) = n`. -/
  httpHistoryLen : Str → Option Nat

/-- The literal `"https"`. -/
def httpsScheme : Str := "https".toList

/-- Embedding of `_get_domain`: normalize, parse, take `netloc` up to the
first `":"` (`netloc.split(":")[0]`), and lower-case it. -/
def get_domain (env : Env) (url : Str) : Str :=
  let norm := normalize_url url
  let domain := (env.netloc norm).takeWhile (fun c => c ≠ ':')
  domain.map Char.toLower

/-- Embedding of `_get_domain_age_days`: query whois for the creation date,
take the first date when a list is returned, return `0` when the date is
missing or the query raised, and otherwise return
`max(utcnow - creation_date, 0)` in days. -/
def get_domain_age_days (env : Env) (domain : Str) : Int :=
  match env.whoisCreationDates domain with
  | none => 0
  | some dates =>
    match dates.head? with
    | none => 0
    | some creation => max (env.nowUtcDays - creation) 0

/-- Embedding of `_has_valid_ssl`: connect to port 443, handshake, read the
peer certificate; `1` if a certificate came back, `0` on an empty
certificate, `0` if anything raised. -/
def has_valid_ssl (env : Env) (domain : Str) : Nat :=
  match env.sslCert domain with
  | none => 0
  | some cert => if cert then 1 else 0

/-- Embedding of `_get_redirect_count`: normalize the URL, issue a GET
following redirects, return the length of the response history, `0` if the
request raised. -/
def get_redirect_count (env : Env) (url : Str) : Nat :=
  match env.httpHistoryLen (normalize_url url) with
  | none => 0
  | some n => n

/-- The dict returned by `get_osint_details`, as a typed record. -/
structure OsintRecord where
  domain : Str
  https : Nat
  domain_age_days : Int
  ssl_valid : Nat
  redirects : Nat
  suspicious_keywords : Nat
  subdomain_count : Nat
deriving DecidableEq

/-- Embedding of `get_osint_details`. -/
def get_osint_details (env : Env) (url : Str) : OsintRecord :=
  let norm_url := normalize_url url
  let domain := get_domain env url
  let https_flag := if env.scheme norm_url = httpsScheme then 1 else 0
  let domain_age := get_domain_age_days env domain
  let ssl_valid := has_valid_ssl env domain
  let redirects := get_redirect_count env url
  let suspicious_count := count_suspicious_keywords url
  let sub := env.subdomain norm_url
  let subdomain_count := if sub.isEmpty then 0 else (pySplit '.' sub).length
  { domain := domain
    https := https_flag
    domain_age_days := domain_age
    ssl_valid := ssl_valid
    redirects := redirects
    suspicious_keywords := suspicious_count
    subdomain_count := subdomain_count }

/-- Embedding of `extract_features`: 12 lexical features computed from the
normalized URL, then 6 OSINT features read from the dict returned by
`get_osint_details`, then zero-padding to a fixed length of 30. -/
def extract_features (env : Env) (url : Str) : List Int :=
  let norm_url := normalize_url url
  let domain := get_domain env url
  let osint := get_osint_details env url
  let features : List Int :=
    [ (norm_url.length : Int),
      (norm_url.count '.' : Int),
      (if norm_url.contains '@' then 1 else 0),
      (countSub doubleSlash norm_url : Int),
      (norm_url.count '-' : Int),
      (norm_url.count '?' : Int),
      (norm_url.count '=' : Int),
      (norm_url.countP (fun c => c.isDigit) : Int),
      (norm_url.countP (fun c => c.isAlpha) : Int),
      ((env.suffix norm_url).length : Int),
      (domain.length : Int),
      ((env.path norm_url).length : Int),
      (osint.https : Int),
      osint.domain_age_days,
      (osint.ssl_valid : Int),
      (osint.redirects : Int),
      (osint.suspicious_keywords : Int),
      (osint.subdomain_count : Int) ]
  (features ++ List.replicate (30 - features.length) 0).take 30

/-- The two possible verdicts (`"Legitimate"` / `"Phishing"` strings in the
source). -/
inductive Verdict where
  | Legitimate
  | Phishing
deriving DecidableEq

/-- Guard of the first hybrid override rule of `predict`:
`osint["https"] == 1 and osint["ssl_valid"] == 1 and osint["suspicious_keywords"] == 0`. -/
def rule1_cond (o : OsintRecord) : Bool :=
  o.https == 1 && o.ssl_valid == 1 && o.suspicious_keywords == 0

/-- Guard of the second hybrid override rule of `predict`:
`osint["https"] == 0 and osint["ssl_valid"] == 0 and osint["suspicious_keywords"] >= 2`. -/
def rule2_cond (o : OsintRecord) : Bool :=
  o.https == 0 && o.ssl_valid == 0 && 2 ≤ o.suspicious_keywords

/-- Embedding of the "simple hybrid tweaks" of `predict`: two sequential
`if` statements, each overwriting `result` when its guard holds. -/
def hybrid_resolve (base : Verdict) (o : OsintRecord) : Verdict :=
  let result := base
  let result := if rule1_cond o then Verdict.Legitimate else result
  let result := if rule2_cond o then Verdict.Phishing else result
  result

/-- The same two override rules evaluated in the opposite order, used to
state that the evaluation order does not matter. -/
def hybrid_resolve_swapped (base : Verdict) (o : OsintRecord) : Verdict :=
  let result := base
  let result := if rule2_cond o then Verdict.Phishing else result
  let result := if rule1_cond o then Verdict.Legitimate else result
  result

/-- Embedding of the `/predict` route body (the scan pipeline part): take the
`url` form field (`(request.form.get("url") or "").strip()`), extract
features, classify, fetch OSINT details, apply the hybrid override rules.
The externally supplied classifier (`scaler.transform` + `model.predict`)
is the opaque function `classify`. Note that no emptiness check on `url`
is performed on this route. -/
def predict_route (env : Env) (classify : List Int → Verdict)
    (form_url : Option Str) : Verdict × OsintRecord :=
  let url := pyStrip (pyOrEmpty form_url)
  let features := extract_features env url
  let base := classify features
  let osint := get_osint_details env url
  let result := hybrid_resolve base osint
  (result, osint)

/-- The error message of `/api/scan` on a missing or empty `url` field. -/
def urlRequiredMsg : Str := "url field is required".toList

/-- Embedding of the `/api/scan` route body: take the `url` JSON field
(`(data.get("url") or "").strip()`), reject with a 400 error when it is
empty, otherwise extract features, classify and fetch OSINT details
(this route applies no hybrid override). -/
def api_scan (env : Env) (classify : List Int → Verdict)
    (data_url : Option Str) : Except Str (Str × Verdict × OsintRecord) :=
  let url := pyStrip (pyOrEmpty data_url)
  if url.isEmpty then Except.error urlRequiredMsg
  else
    let feats := extract_features env url
    let result := classify feats
    let osint := get_osint_details env url
    Except.ok (url, result, osint)

/-- A concrete environment in which every network probe fails (raises) and
the library parsers return empty components; used to exercise the
theorems on concrete inputs. -/
def envFail : Env where
  netloc := fun _ => []
  scheme := fun _ => "http".toList
  path := fun _ => []
  suffix := fun _ => []
  subdomain := fun _ => []
  whoisCreationDates := fun _ => none
  nowUtcDays := 0
  sslCert := fun _ => none
  httpHistoryLen := fun _ => none

/-- A concrete environment in which every probe succeeds: the whois query
returns the single creation date 100 (in days), now is day 465, the TLS
handshake yields a non-empty certificate, and the GET traversed two
redirects. -/
def envAged : Env where
  netloc := fun _ => []
  scheme := fun _ => "https".toList
  path := fun _ => []
  suffix := fun _ => []
  subdomain := fun _ => []
  whoisCreationDates := fun _ => some [100]
  nowUtcDays := 465
  sslCert := fun _ => some true
  httpHistoryLen := fun _ => some 2

/-- The scenario URL with every letter upper-cased. -/
def scenarioURLUpper : Str :=
  "HTTP://SECURE-LOGIN-VERIFY-PAYPAL.BADSITE.TEST/ACCOUNT/CONFIRM".toList

/-- Claim C1 (counterexample): on the scenario URL
`http://secure-login-verify-paypal.badsite.test/account/confirm` the
suspicious-keyword counter does not return 5: six of the fixed keywords
(`login`, `secure`, `verify`, `account`, `confirm`, `paypal`) occur in the
text, so the count is 6. -/
theorem count_scenario_ne_five : count_suspicious_keywords scenarioURL ≠ 5 := by
  decide

/-- Claim C1 (amended): on the scenario URL the suspicious-keyword counter
returns exactly 6, counting case-insensitive matches against the fixed
14-word keyword list — the upper-cased variant of the URL gives the same
count. -/
theorem count_scenario_eq_six :
    count_suspicious_keywords scenarioURL = 6 ∧
    count_suspicious_keywords scenarioURLUpper = 6 := by
  decide

/-- Claim C9: for every input URL string the suspicious-keyword count is at
most 14, the length of the fixed keyword list, since each listed keyword
contributes at most once. -/
theorem count_suspicious_keywords_le (url : Str) :
    count_suspicious_keywords url ≤ 14 ∧ suspicious_words.length = 14 := by
  constructor
  · unfold count_suspicious_keywords
    exact le_trans (List.length_filter_le _ _) (by decide)
  · decide

/-- An input that already starts with `"http://"` but carries a trailing
space. -/
def trailingSpaceURL : Str := "http://a ".toList

/-- Claim C5 (counterexample): the input `"http://a "` starts with
`"http://"`, yet the normalizer does not return it unchanged — it strips
the trailing whitespace first. -/
theorem normalize_url_not_identity :
    startsWithScheme trailingSpaceURL = true ∧
    normalize_url trailingSpaceURL ≠ trailingSpaceURL := by
  decide

/-- Claim C5 (amended): the normalizer first strips leading and trailing
whitespace; if the stripped input starts with `"http://"` or `"https://"`
it is returned (stripped but otherwise unchanged), otherwise `"http://"`
is prepended to the stripped input; in all cases the output starts with a
scheme in `{http, https}`. -/
theorem normalize_url_spec (url : Str) :
    (startsWithScheme (pyStrip url) = true → normalize_url url = pyStrip url) ∧
    (startsWithScheme (pyStrip url) = false →
      normalize_url url = schemeHttp ++ pyStrip url) ∧
    startsWithScheme (normalize_url url) = true := by
  unfold normalize_url
  cases h : startsWithScheme (pyStrip url) with
  | true => simp [h]
  | false =>
    refine ⟨by simp [h], fun _ => by simp [h], ?_⟩
    simp only [h, if_false]
    simp [startsWithScheme, List.prefix_append]

/-- The input `"example.com"` of the spec's normalizer scenario. -/
def exampleURL : Str := "example.com".toList

/-- Claim C5 (witness): on the concrete input `"example.com"`, which has no
scheme, the normalizer prepends `"http://"`. -/
theorem normalize_url_spec_witness :
    startsWithScheme (pyStrip exampleURL) = false ∧
    normalize_url exampleURL = schemeHttp ++ pyStrip exampleURL :=
  ⟨by decide, (normalize_url_spec exampleURL).2.1 (by decide)⟩

/-- Claim C2: for every environment and every input string (the empty string
included), `extract_features` returns a vector of exactly 30 values, and
every slot after the 18 populated ones is 0. The 18 populated entries are
opaque here, so both facts follow from the shape of the assembled list
alone, by reduction. -/
theorem extract_features_shape (env : Env) (url : Str) :
    (extract_features env url).length = 30 ∧
    (extract_features env url).drop 18 = List.replicate 12 (0 : Int) :=
  ⟨rfl, rfl⟩

/-- Claim C10: for every environment (the network probes modelled as
deterministic functions) and every URL, slots 13 through 18 of the vector
returned by `extract_features` are exactly the `https`, `domain_age_days`,
`ssl_valid`, `redirects`, `suspicious_keywords` and `subdomain_count`
fields of the record returned by `get_osint_details` on the same URL. -/
theorem extract_features_osint_slots (env : Env) (url : Str) :
    ((extract_features env url).drop 12).take 6 =
      [((get_osint_details env url).https : Int),
       (get_osint_details env url).domain_age_days,
       ((get_osint_details env url).ssl_valid : Int),
       ((get_osint_details env url).redirects : Int),
       ((get_osint_details env url).suspicious_keywords : Int),
       ((get_osint_details env url).subdomain_count : Int)] := by
  rfl

/-- Claim C3: the hybrid resolver forces `Legitimate` when `https = 1`,
`ssl_valid = 1` and the suspicious-keyword count is 0; forces `Phishing`
when `https = 0`, `ssl_valid = 0` and the count is at least 2; and passes
the base verdict through unchanged when neither rule's guard holds. -/
theorem hybrid_resolve_spec (base : Verdict) (o : OsintRecord) :
    (o.https = 1 → o.ssl_valid = 1 → o.suspicious_keywords = 0 →
      hybrid_resolve base o = Verdict.Legitimate) ∧
    (o.https = 0 → o.ssl_valid = 0 → 2 ≤ o.suspicious_keywords →
      hybrid_resolve base o = Verdict.Phishing) ∧
    (rule1_cond o = false → rule2_cond o = false →
      hybrid_resolve base o = base) := by
  refine ⟨?_, ?_, ?_⟩
  · intro h1 h2 h3
    simp [hybrid_resolve, rule1_cond, rule2_cond, h1, h2, h3]
  · intro h1 h2 h3
    simp [hybrid_resolve, rule1_cond, rule2_cond, h1, h2, h3]
  · intro h1 h2
    simp [hybrid_resolve, h1, h2]

/-- An OSINT record matching the spec's determinism scenario:
`https = 1`, `ssl_valid = 1`, `suspicious_keywords = 0`. -/
def osintClean : OsintRecord :=
  { domain := []
    https := 1
    domain_age_days := 0
    ssl_valid := 1
    redirects := 0
    suspicious_keywords := 0
    subdomain_count := 0 }

/-- Claim C3 (witness): `resolve(Phishing, {https:1, sslValid:1,
suspiciousKeywordCount:0}) = Legitimate`. -/
theorem hybrid_resolve_spec_witness :
    hybrid_resolve Verdict.Phishing osintClean = Verdict.Legitimate :=
  (hybrid_resolve_spec Verdict.Phishing osintClean).1 rfl rfl rfl

/-- Claim C8: for every OSINT record the two override guards are never both
satisfied, and evaluating the two rules in the opposite order yields the
same final verdict. -/
theorem hybrid_rules_exclusive (base : Verdict) (o : OsintRecord) :
    (rule1_cond o && rule2_cond o) = false ∧
    hybrid_resolve base o = hybrid_resolve_swapped base o := by
  have hx : (rule1_cond o && rule2_cond o) = false := by
    cases h1 : o.https with
    | zero => simp [rule1_cond, h1]
    | succ n => simp [rule2_cond, h1]
  refine ⟨hx, ?_⟩
  cases h1 : rule1_cond o <;> cases h2 : rule2_cond o <;>
    simp_all [hybrid_resolve, hybrid_resolve_swapped]

/-- Claim C6: each of the three OSINT probes converts an internal fault
(the `none` outcome of its network call) into the documented neutral
default instead of letting it escape: 0 for the domain age, 0 (false) for
the TLS validity flag, 0 for the redirect count. In the embedding each
probe is a total function, so no other outcome is possible. -/
theorem probes_default_on_failure (env : Env) (domain url : Str) :
    (env.whoisCreationDates domain = none → get_domain_age_days env domain = 0) ∧
    (env.sslCert domain = none → has_valid_ssl env domain = 0) ∧
    (env.httpHistoryLen (normalize_url url) = none →
      get_redirect_count env url = 0) := by
  refine ⟨?_, ?_, ?_⟩ <;> intro h <;>
    simp [get_domain_age_days, has_valid_ssl, get_redirect_count, h]

/-- Claim C6 (witness): in the all-probes-fail environment, each probe
returns its neutral default on the empty domain/URL. -/
theorem probes_default_on_failure_witness :
    get_domain_age_days envFail [] = 0 ∧
    has_valid_ssl envFail [] = 0 ∧
    get_redirect_count envFail [] = 0 :=
  ⟨(probes_default_on_failure envFail [] []).1 rfl,
   (probes_default_on_failure envFail [] []).2.1 rfl,
   (probes_default_on_failure envFail [] []).2.2 rfl⟩

/-- Claim C7: for every environment and domain the domain-age probe returns a
non-negative number of days; on success it returns
`max(now_utc - creation_date, 0)` (taking the first creation date), and it
returns 0 when the query raised or the creation date is missing. -/
theorem get_domain_age_days_spec (env : Env) (domain : Str) :
    0 ≤ get_domain_age_days env domain ∧
    (env.whoisCreationDates domain = none → get_domain_age_days env domain = 0) ∧
    (∀ dates, env.whoisCreationDates domain = some dates → dates.head? = none →
      get_domain_age_days env domain = 0) ∧
    (∀ dates creation, env.whoisCreationDates domain = some dates →
      dates.head? = some creation →
      get_domain_age_days env domain = max (env.nowUtcDays - creation) 0) := by
  refine ⟨?_, ?_, ?_, ?_⟩
  · unfold get_domain_age_days
    split
    · exact le_refl 0
    · split
      · exact le_refl 0
      · exact le_max_right _ _
  · intro h
    simp [get_domain_age_days, h]
  · intro dates h hh
    simp [get_domain_age_days, h, hh]
  · intro dates creation h hh
    simp [get_domain_age_days, h, hh]

/-- Claim C7 (witness): in the environment whose whois query succeeds with
creation day 100 and now = day 465, the probe returns
`max(465 - 100, 0) = 365` and that value is non-negative. -/
theorem get_domain_age_days_spec_witness :
    0 ≤ get_domain_age_days envAged [] ∧
    get_domain_age_days envAged [] = max ((465 : Int) - 100) 0 :=
  ⟨(get_domain_age_days_spec envAged []).1,
   (get_domain_age_days_spec envAged []).2.2.2 [100] 100 rfl rfl⟩

/-- Claim C4 (counterexample): the form-based `/predict` route performs no
emptiness check: on a missing `url` form field the classifier pipeline is
entered anyway (with the empty string), so its output still depends on the
classifier — the claim that the core pipeline is never entered for such a
request is false for this route. -/
theorem predict_route_runs_on_empty_url :
    predict_route envFail (fun _ => Verdict.Legitimate) none ≠
      predict_route envFail (fun _ => Verdict.Phishing) none := by
  decide

/-- Claim C4 (amended): a JSON `/api/scan` request whose `url` field is
missing or strips to the empty string is rejected with the validation
error `"url field is required"`, and the response is the same whatever the
environment (probes, parsers) and classifier are — the core pipeline is
never entered on this route for such a request. -/
theorem api_scan_rejects_empty (env env₂ : Env)
    (classify classify₂ : List Int → Verdict) (d : Option Str)
    (h : (pyStrip (pyOrEmpty d)).isEmpty = true) :
    api_scan env classify d = Except.error urlRequiredMsg ∧
    api_scan env classify d = api_scan env₂ classify₂ d := by
  unfold api_scan
  simp [h]

/-- Claim C4 (witness): a request without a `url` field is rejected with the
validation error, in the all-probes-fail environment with a constant
classifier. -/
theorem api_scan_rejects_empty_witness :
    api_scan envFail (fun _ => Verdict.Legitimate) none =
      Except.error urlRequiredMsg :=
  (api_scan_rejects_empty envFail envFail (fun _ => Verdict.Legitimate)
    (fun _ => Verdict.Phishing) none (by decide)).1
